import Mathlib

/-!
Shallow embedding of the secure file access-control subsystem
(apps/files/models.py, apps/files/services.py, apps/files/views.py).

Machine integers are modelled as `Nat`; timestamps are `Nat` seconds.
Django ORM tables are modelled as Lean lists threaded through the
service functions as explicit state.
-/

namespace SecureFiles

/-- File access levels (models.FileAccessLevel). -/
inductive FileAccessLevel where
  | public | student | professor | admin
deriving DecidableEq, Repr

/-- Supported file types (models.FileType). -/
inductive FileType where
  | video | pdf | document | image | audio
deriving DecidableEq, Repr

/-- Access types of a FileAccess grant and of log actions
(choices on models.FileAccess.access_type). -/
inductive AccessType where
  | read | download | stream | edit
deriving DecidableEq, Repr

/-- A user as the services see it: an identity plus the related-model
capabilities probed by hasattr on the attributes admin / professor / student
in services.SecureFileService.get_user_role. -/
structure User where
  id : Nat
  hasAdmin : Bool
  hasProfessor : Bool
  hasStudent : Bool
deriving DecidableEq, Repr

/-- Embeds models.File: the fields consulted by the access-control paths.
`expires_at = none` models a NULL expiration; `max_downloads = none`
models a NULL (unlimited) quota. -/
structure File where
  id : Nat
  name : String
  file_path : String
  file_type : FileType
  file_size : Nat
  access_level : FileAccessLevel
  course : Option Nat
  chapter : Option Nat
  lesson : Option Nat
  uploaded_by : Nat
  is_active : Bool
  allow_download : Bool
  allow_streaming : Bool
  max_downloads : Option Nat
  expires_at : Option Nat
deriving DecidableEq, Repr

/-- Embeds models.File.is_expired: `timezone.now() > self.expires_at`, false when
`expires_at` is NULL.  Note the comparison is strict. -/
def File.is_expired (f : File) (now : Nat) : Bool :=
  match f.expires_at with
  | none => false
  | some t => now > t

/-- Embeds models.FileAccess: an explicit grant row for a (file, user, access_type)
key, carrying the usage counter. -/
structure FileAccess where
  file_id : Nat
  user_id : Nat
  access_type : AccessType
  granted_at : Nat
  expires_at : Option Nat
  granted_by : Nat
  access_count : Nat
  last_accessed : Option Nat
deriving DecidableEq, Repr

/-- Embeds models.FileAccess.is_expired: `timezone.now() > self.expires_at`,
false when NULL; strict comparison. -/
def FileAccess.is_expired (g : FileAccess) (now : Nat) : Bool :=
  match g.expires_at with
  | none => false
  | some t => now > t

/-- Embeds models.FileAccessLog: the fields relevant to auditing and anomaly
detection. -/
structure FileAccessLog where
  file_id : Nat
  user_id : Nat
  action : AccessType
  success : Bool
  response_code : Nat
  timestamp : Nat
deriving DecidableEq, Repr

/-- The persistent state the service reads and writes: the FileAccess
table and the FileAccessLog table, as lists in insertion order. -/
structure ServiceState where
  grants : List FileAccess
  logs : List FileAccessLog
deriving Repr

/-- Embeds the lookup `FileAccess.objects.get(file=…, user=…, access_type=…)`: the lookup by
the unique (file, user, access_type) key in the FileAccess table. -/
def findGrant (grants : List FileAccess) (fid uid : Nat) (a : AccessType) : Option FileAccess :=
  grants.find? (fun g => decide (g.file_id = fid ∧ g.user_id = uid ∧ g.access_type = a))

/-- Embeds services.SecureFileService.get_user_role: role probed by `hasattr`
in the order admin, professor, student, with fallback role `user`. -/
def get_user_role (u : User) : String :=
  if u.hasAdmin then "admin"
  else if u.hasProfessor then "professor"
  else if u.hasStudent then "student"
  else "user"

/-- Embeds services.SecureFileService.check_access_level. -/
def check_access_level (f : File) (u : User) : Bool :=
  if f.access_level = FileAccessLevel.public then true
  else
    let user_role := get_user_role u
    if f.access_level = FileAccessLevel.student then
      decide (user_role = "student" ∨ user_role = "professor" ∨ user_role = "admin")
    else if f.access_level = FileAccessLevel.professor then
      decide (user_role = "professor" ∨ user_role = "admin")
    else if f.access_level = FileAccessLevel.admin then
      decide (user_role = "admin")
    else false

/-- Embeds services.SecureFileService.check_file_access_permissions.
The Python quota guard tests `file.max_downloads` for
truthiness, so a quota of 0 (falsy) disables the check. -/
def check_file_access_permissions (st : ServiceState) (f : File) (u : User)
    (a : AccessType) (now : Nat) : Bool :=
  if a = AccessType.download ∧ ¬ f.allow_download then false
  else if a = AccessType.stream ∧ ¬ f.allow_streaming then false
  else
    match findGrant st.grants f.id u.id a with
    | some g =>
        if g.is_expired now then false
        else if a = AccessType.download ∧
                  (∃ q, f.max_downloads = some q ∧ q ≠ 0 ∧ g.access_count ≥ q) then false
        else true
    | none => check_access_level f u

/-- Embeds services.SecureFileService.check_content_access: with no
course/chapter/lesson association the tier check decides; otherwise the
placeholder branches all fall through to True. -/
def check_content_access (f : File) (u : User) : Bool :=
  if f.course = none ∧ f.chapter = none ∧ f.lesson = none then
    check_access_level f u
  else true

/-- Embeds services.SecureFileService.verify_file_access: liveness, tier,
per-file permissions, then content association, short-circuiting. -/
def verify_file_access (st : ServiceState) (f : File) (u : User)
    (a : AccessType) (now : Nat) : Bool :=
  if ¬ f.is_active ∨ f.is_expired now then false
  else if ¬ check_access_level f u then false
  else if ¬ check_file_access_permissions st f u a now then false
  else if ¬ check_content_access f u then false
  else true

/-- The check inside verify_file_access that fails first, one constructor
per `return False` site of the source, in its evaluation order.  `none`
means every check passed. -/
inductive DenyReason where
  | file_unavailable | insufficient_tier | download_disabled | stream_disabled
  | grant_expired | quota_exceeded | content_denied
deriving DecidableEq, Repr

/-- Classifier naming the source branch of verify_file_access (and the
checks it calls) that denies, mirroring their evaluation order. -/
def denyReason (st : ServiceState) (f : File) (u : User)
    (a : AccessType) (now : Nat) : Option DenyReason :=
  if ¬ f.is_active ∨ f.is_expired now then some DenyReason.file_unavailable
  else if ¬ check_access_level f u then some DenyReason.insufficient_tier
  else if a = AccessType.download ∧ ¬ f.allow_download then some DenyReason.download_disabled
  else if a = AccessType.stream ∧ ¬ f.allow_streaming then some DenyReason.stream_disabled
  else
    match findGrant st.grants f.id u.id a with
    | some g =>
        if g.is_expired now then some DenyReason.grant_expired
        else if a = AccessType.download ∧
                  (∃ q, f.max_downloads = some q ∧ q ≠ 0 ∧ g.access_count ≥ q) then
          some DenyReason.quota_exceeded
        else if ¬ check_content_access f u then some DenyReason.content_denied
        else none
    | none =>
        if ¬ check_content_access f u then some DenyReason.content_denied
        else none

/-- Embeds services.SecureFileService.log_access_attempt: appends one
FileAccessLog row; response_code 200 on success, 403 otherwise. -/
def log_access_attempt (st : ServiceState) (f : File) (u : User)
    (a : AccessType) (success : Bool) (now : Nat) : ServiceState :=
  { st with logs := st.logs ++
      [{ file_id := f.id, user_id := u.id, action := a, success := success,
         response_code := if success then 200 else 403, timestamp := now }] }

/-- The number of seconds in `timedelta(days=30)`. -/
def days30 : Nat := 30 * 86400

/-- Embeds services.SecureFileService.update_access_count:
`get_or_create` on the (file, user, access_type) key — a missing row is
created with `access_count=0`, `granted_by=user` and
`expires_at = now + 30 days` — then the counter is incremented and
`last_accessed` set. -/
def update_access_count (st : ServiceState) (f : File) (u : User)
    (a : AccessType) (now : Nat) : ServiceState :=
  match findGrant st.grants f.id u.id a with
  | some _ =>
      { st with grants := st.grants.map (fun g =>
          if g.file_id = f.id ∧ g.user_id = u.id ∧ g.access_type = a then
            { g with access_count := g.access_count + 1, last_accessed := some now }
          else g) }
  | none =>
      { st with grants := st.grants ++
          [{ file_id := f.id, user_id := u.id, access_type := a,
             granted_at := now, expires_at := some (now + days30),
             granted_by := u.id, access_count := 1, last_accessed := some now }] }

/-- Outcome of services.SecureFileService.generate_signed_url: a URL, or
the PermissionDenied exception, or the ValidationError raised when the
MinIO presign call fails (the S3Error branch). -/
inductive SignedUrlResult where
  | ok | permissionDenied | s3error
deriving DecidableEq, Repr

/-- Embeds services.SecureFileService.generate_signed_url.  `storeOk` models
whether the MinIO presign call succeeds.  On deny: one failure log and
PermissionDenied.  On allow: one success log, then update_access_count.
On store failure: one failure log and ValidationError.  Exactly one log
row is appended on every path. -/
def generate_signed_url (storeOk : Bool) (st : ServiceState) (f : File)
    (u : User) (a : AccessType) (now : Nat) : SignedUrlResult × ServiceState :=
  if ¬ verify_file_access st f u a now then
    (SignedUrlResult.permissionDenied, log_access_attempt st f u a false now)
  else if storeOk then
    let st1 := log_access_attempt st f u a true now
    (SignedUrlResult.ok, update_access_count st1 f u a now)
  else
    (SignedUrlResult.s3error, log_access_attempt st f u a false now)

/-- The JSON envelope a view returns, reduced to the fields the claims
are about: HTTP status, the success flag and the message string. -/
structure Response where
  status : Nat
  success : Bool
  message : String
deriving DecidableEq, Repr

/-- Embeds views.get_file_access: looks the file up by id among active rows
(404 without logging when absent), derives the access type from the file
type (video streams, everything else downloads), and maps both the
PermissionDenied and the ValidationError raised by generate_signed_url
through the blanket `except Exception` handler to a 500 response whose
message interpolates `str(e)`. -/
def get_file_access (storeOk : Bool) (st : ServiceState) (db : List File)
    (fid : Nat) (u : User) (now : Nat) : Response × ServiceState :=
  match db.find? (fun f => decide (f.id = fid) && f.is_active) with
  | none => ({ status := 404, success := false, message := "File not found" }, st)
  | some f =>
      let access_type := if f.file_type = FileType.video then AccessType.stream
                         else AccessType.download
      match generate_signed_url storeOk st f u access_type now with
      | (SignedUrlResult.ok, st1) =>
          ({ status := 200, success := true, message := "File access granted" }, st1)
      | (SignedUrlResult.permissionDenied, st1) =>
          ({ status := 500, success := false,
             message := "Error generating file access: You don\x27t have permission to access this file" }, st1)
      | (SignedUrlResult.s3error, st1) =>
          ({ status := 500, success := false,
             message := "Error generating file access: Error generating file access URL" }, st1)

/-- Embeds services.SecureFileService.detect_suspicious_activity: counts the
FileAccessLog rows of the (user, file) pair whose timestamp is at least
`now - 5 minutes`, and flags only a count strictly above 20. -/
def detect_suspicious_activity (logs : List FileAccessLog) (u : User)
    (f : File) (now : Nat) : Bool :=
  if (logs.filter (fun l =>
      decide (l.user_id = u.id ∧ l.file_id = f.id ∧
              l.timestamp ≥ now - 5 * 60))).length > 20
  then true else false

/-- Embeds views.delete_file: fetch by `(id, uploaded_by=request.user)` with no
role check and no is_active filter; on hit, set `is_active=False` and
save (200); on miss, 404.  The row is never removed. -/
def delete_file (db : List File) (u : User) (fid : Nat) : Response × List File :=
  match db.find? (fun f => decide (f.id = fid ∧ f.uploaded_by = u.id)) with
  | some _ =>
      ({ status := 200, success := true, message := "File deleted successfully" },
       db.map (fun f => if f.id = fid ∧ f.uploaded_by = u.id then
                          { f with is_active := false } else f))
  | none =>
      ({ status := 404, success := false, message := "File not found or access denied" }, db)

/-- Status values of models.FileUploadSession. -/
inductive SessionStatus where
  | pending | uploading | processing | completed | failed | cancelled
deriving DecidableEq, Repr

/-- Embeds models.FileUploadSession: the fields the upload view touches. -/
structure UploadSession where
  user_id : Nat
  file_name : String
  file_size : Nat
  file_type : FileType
  mime_type : String
  upload_token : String
  status : SessionStatus
  expires_at : Nat
  completed_at : Option Nat
  uploaded_file : Option Nat
  error_message : Option String
deriving DecidableEq, Repr

/-- Embeds models.FileUploadSession.is_expired: `timezone.now() > self.expires_at`
(strict). -/
def UploadSession.is_expired (s : UploadSession) (now : Nat) : Bool :=
  now > s.expires_at

/-- Outcome of views.upload_file, one constructor per return site:
201 created, 400 on bad token (ValidationError from verify_upload_token),
404 on session lookup miss, 410 on expired session, 400 when no file part
is present, 400 on size mismatch, 500 on MinIO failure. -/
inductive UploadOutcome where
  | created | tokenError | invalidSession | sessionExpired
  | noFile | sizeMismatch | storeFailed
deriving DecidableEq, Repr

/-- The world views.upload_file reads and writes: the single session row
matching the unique token, and how many File rows exist. -/
structure UploadSys where
  sess : UploadSession
  filesCreated : Nat
deriving DecidableEq, Repr

/-- First half of views.upload_file, up to and including the
save that writes status uploading: JWT verification
(`tokenOk` models the signature/expiry check), the lookup by
token and user over the pending/uploading statuses, and the
expiry check that cancels a stale session.  Returns `some outcome` when
the view returned early, `none` when it proceeds to the second half.
The split point is the save: a plain read-then-write with no atomic
claim, so another request may run between the two halves. -/
def uploadPhase1 (tokenOk : Bool) (uid : Nat) (tok : String) (now : Nat)
    (s : UploadSys) : Option UploadOutcome × UploadSys :=
  if ¬ tokenOk then (some UploadOutcome.tokenError, s)
  else if ¬ (s.sess.upload_token = tok ∧ s.sess.user_id = uid ∧
             (s.sess.status = SessionStatus.pending ∨
              s.sess.status = SessionStatus.uploading)) then
    (some UploadOutcome.invalidSession, s)
  else if s.sess.is_expired now then
    (some UploadOutcome.sessionExpired,
     { s with sess := { s.sess with status := SessionStatus.cancelled } })
  else
    (none, { s with sess := { s.sess with status := SessionStatus.uploading } })

/-- Second half of views.upload_file: the file-part presence check, the
exact size comparison against the declared session size (mismatch fails
the session), the MinIO put (`storeOk`), File creation and the final
`completed` transition.  No status is re-read here. -/
def uploadPhase2 (uploadedSize : Option Nat) (storeOk : Bool) (now : Nat)
    (s : UploadSys) : UploadOutcome × UploadSys :=
  match uploadedSize with
  | none => (UploadOutcome.noFile, s)
  | some n =>
      if n ≠ s.sess.file_size then
        (UploadOutcome.sizeMismatch,
         { s with sess :=
            { s.sess with
              status := SessionStatus.failed
              error_message := some "File size mismatch" } })
      else if ¬ storeOk then
        (UploadOutcome.storeFailed,
         { s with sess := { s.sess with status := SessionStatus.failed } })
      else
        (UploadOutcome.created,
         { sess :=
            { s.sess with
              status := SessionStatus.completed
              completed_at := some now
              uploaded_file := some s.filesCreated }
           filesCreated := s.filesCreated + 1 })

/-- Embeds views.upload_file as one uninterrupted request: phase 1 then, when it
proceeds, phase 2. -/
def upload_file (tokenOk : Bool) (uid : Nat) (tok : String)
    (uploadedSize : Option Nat) (storeOk : Bool) (now : Nat)
    (s : UploadSys) : UploadOutcome × UploadSys :=
  match uploadPhase1 tokenOk uid tok now s with
  | (some o, s1) => (o, s1)
  | (none, s1) => uploadPhase2 uploadedSize storeOk now s1

/-- Two requests for the same token interleaved at the phase boundary:
request 1 runs phase 1, then request 2 runs phase 1, then each runs its
phase 2.  This is a legal schedule because the status write of phase 1
is an unguarded save, not a conditional-update claim. -/
def upload_two_interleaved (uid : Nat) (tok : String) (size1 size2 : Nat)
    (now : Nat) (s0 : UploadSys) : Option UploadOutcome × Option UploadOutcome × UploadSys :=
  match uploadPhase1 true uid tok now s0 with
  | (some o1, s1) => (some o1, none, s1)
  | (none, s1) =>
      match uploadPhase1 true uid tok now s1 with
      | (some o2, s2) =>
          let (o1, s3) := uploadPhase2 (some size1) true now s2
          (some o1, some o2, s3)
      | (none, s2) =>
          let (o1, s3) := uploadPhase2 (some size1) true now s2
          let (o2, s4) := uploadPhase2 (some size2) true now s3
          (some o1, some o2, s4)

/-- Privilege rank of the role get_user_role assigns, following the
order user (anonymous fallback) < student < professor < admin. -/
def roleRank (u : User) : Nat :=
  if get_user_role u = "admin" then 3
  else if get_user_role u = "professor" then 2
  else if get_user_role u = "student" then 1
  else 0

/-- A user whose role satisfies a tier also satisfies the content hook,
since check_content_access either repeats the tier check or passes. -/
theorem check_content_access_of_level {f : File} {u : User}
    (h : check_access_level f u = true) : check_content_access f u = true := by
  unfold check_content_access
  split <;> simp [h]

/-- verify_file_access allows exactly when the branch classifier finds no
denying check: the classifier is a faithful instrumentation of the
decision. -/
theorem verify_iff_no_denyReason (st : ServiceState) (f : File) (u : User)
    (a : AccessType) (now : Nat) :
    verify_file_access st f u a now = true ↔ denyReason st f u a now = none := by
  unfold verify_file_access denyReason check_file_access_permissions
  cases ha : f.is_active with
  | false => simp [ha]
  | true =>
    cases he : f.is_expired now with
    | true => simp [ha, he]
    | false =>
      cases h2 : check_access_level f u with
      | false => simp [ha, he, h2]
      | true =>
        have hc := check_content_access_of_level h2
        cases hg : findGrant st.grants f.id u.id a with
        | none =>
            cases hd : f.allow_download <;> cases hs : f.allow_streaming <;> cases a <;>
              simp [ha, he, h2, hg, hc, hd, hs]
        | some g =>
          cases hx : g.is_expired now with
          | true =>
              cases hd : f.allow_download <;> cases hs : f.allow_streaming <;> cases a <;>
                simp [ha, he, h2, hg, hx, hd, hs]
          | false =>
              by_cases h6 : (∃ q, f.max_downloads = some q ∧ q ≠ 0 ∧ g.access_count ≥ q) <;>
                cases hd : f.allow_download <;> cases hs : f.allow_streaming <;> cases a <;>
                  simp [ha, he, h2, hg, hx, hd, hs, h6, hc]

/-- Claim C2: tier monotonicity — if the tier check allows a user, it allows
every user whose role has equal or greater privilege in the order
anonymous < student < professor < admin; and a public file passes the
tier check for every user, capabilities or none. -/
theorem tier_monotonicity (f : File) (u v : User) :
    (roleRank u ≤ roleRank v →
      check_access_level f u = true → check_access_level f v = true) ∧
    (f.access_level = FileAccessLevel.public → check_access_level f u = true) := by
  cases hl : f.access_level <;>
    obtain ⟨_, a1, p1, s1⟩ := u <;>
    obtain ⟨_, a2, p2, s2⟩ := v <;>
    cases a1 <;> cases p1 <;> cases s1 <;> cases a2 <;> cases p2 <;> cases s2 <;>
    simp [check_access_level, get_user_role, roleRank, hl]

/-- Concrete instance of tier_monotonicity: a professor-tier file, a
professor-capable user and an admin-capable user. -/
theorem tier_monotonicity_witness :
    check_access_level
      { id := 1, name := "n", file_path := "p", file_type := FileType.pdf,
        file_size := 1, access_level := FileAccessLevel.professor,
        course := none, chapter := none, lesson := none, uploaded_by := 1,
        is_active := true, allow_download := true, allow_streaming := true,
        max_downloads := none, expires_at := none }
      { id := 3, hasAdmin := true, hasProfessor := false, hasStudent := false } = true :=
  (tier_monotonicity _
      { id := 2, hasAdmin := false, hasProfessor := true, hasStudent := false }
      { id := 3, hasAdmin := true, hasProfessor := false, hasStudent := false }).1
    (by decide) (by decide)

/-- A plain active public file used to instantiate concrete scenarios. -/
def sampleFile : File :=
  { id := 1, name := "notes.pdf", file_path := "protected/pdfs/x.pdf",
    file_type := FileType.pdf, file_size := 1024,
    access_level := FileAccessLevel.public,
    course := none, chapter := none, lesson := none, uploaded_by := 1,
    is_active := true, allow_download := true, allow_streaming := true,
    max_downloads := none, expires_at := none }

/-- A user with no admin/professor/student capability (role `user`). -/
def plainUser : User :=
  { id := 1, hasAdmin := false, hasProfessor := false, hasStudent := false }

/-- A second capability-free user, distinct from plainUser. -/
def otherUser : User :=
  { id := 2, hasAdmin := false, hasProfessor := false, hasStudent := false }

/-- An admin-capable user distinct from the owners of the fixtures. -/
def adminUser : User :=
  { id := 9, hasAdmin := true, hasProfessor := false, hasStudent := false }

/-- Claim C5 counterexample: a decision evaluated exactly at the hard-expiry
instant is allowed, because File.is_expired compares strictly —
contradicting the claim that now = hardExpiry is already denied. -/
theorem expiry_boundary_counterexample :
    verify_file_access ⟨[], []⟩ { sampleFile with expires_at := some 100 }
      plainUser AccessType.download 100 = true := by decide

/-- Claim C5 amended: with a hard expiry set, access is denied strictly after
the expiry instant (and allowed access implies now ≤ expiry, so the
instant itself still passes the liveness gate); an inactive file is
always denied. -/
theorem expiry_liveness_gate (st : ServiceState) (f : File) (u : User)
    (a : AccessType) (now : Nat) :
    (∀ t, f.expires_at = some t → now > t →
        verify_file_access st f u a now = false) ∧
    (f.is_active = false → verify_file_access st f u a now = false) ∧
    (verify_file_access st f u a now = true →
      ∀ t, f.expires_at = some t → now ≤ t) := by
  have hexp : ∀ t, f.expires_at = some t → now > t →
      verify_file_access st f u a now = false := by
    intro t ht hgt
    simp [verify_file_access, File.is_expired, ht, hgt]
  refine ⟨hexp, ?_, ?_⟩
  · intro hin
    simp [verify_file_access, hin]
  · intro hv t ht
    by_contra h
    push_neg at h
    rw [hexp t ht h] at hv
    exact Bool.false_ne_true hv

/-- Instance of expiry_liveness_gate one second past the hard expiry. -/
theorem expiry_liveness_gate_witness :
    verify_file_access ⟨[], []⟩ { sampleFile with expires_at := some 100 }
      plainUser AccessType.download 101 = false :=
  (expiry_liveness_gate ⟨[], []⟩ { sampleFile with expires_at := some 100 }
      plainUser AccessType.download 101).1 100 rfl (by decide)

/-- A FileAccessLog row of the (user, file) pair timestamped inside the
trailing window ending at `ts`. -/
def sampleLog (u : User) (f : File) (ts : Nat) : FileAccessLog :=
  { file_id := f.id, user_id := u.id, action := AccessType.download,
    success := true, response_code := 200, timestamp := ts }

/-- Claim C9 counterexample: with exactly 20 log rows of the pair inside the
window, detect_suspicious_activity returns false — the source flags only
counts strictly above 20, contradicting the at-or-above-20 claim. -/
theorem anomaly_threshold_counterexample :
    detect_suspicious_activity
      (List.replicate 20 (sampleLog plainUser sampleFile 1000))
      plainUser sampleFile 1000 = false := by decide

/-- Claim C9 amended: the detector fires exactly when the windowed count of
the (principal, file) pair is strictly greater than 20; a count of
exactly the threshold 20 therefore yields false and 21 is the least
flagged count. -/
theorem anomaly_strict_threshold (logs : List FileAccessLog) (u : User)
    (f : File) (now : Nat) :
    detect_suspicious_activity logs u f now = true ↔
      20 < (logs.filter (fun l =>
        decide (l.user_id = u.id ∧ l.file_id = f.id ∧
                l.timestamp ≥ now - 5 * 60))).length := by
  unfold detect_suspicious_activity
  constructor
  · intro h
    by_contra hn
    rw [if_neg hn] at h
    exact Bool.false_ne_true h
  · intro h
    rw [if_pos h]

/-- Instance of anomaly_strict_threshold at 21 matching rows. -/
theorem anomaly_strict_threshold_witness :
    detect_suspicious_activity
      (List.replicate 21 (sampleLog plainUser sampleFile 1000))
      plainUser sampleFile 1000 = true :=
  (anomaly_strict_threshold
      (List.replicate 21 (sampleLog plainUser sampleFile 1000))
      plainUser sampleFile 1000).mpr (by decide)

/-- Claim C7 counterexample: an admin who is not the uploader cannot delete —
the lookup filters on uploaded_by only, so the call 404s and the row
stays active, contradicting the owner-or-admin claim. -/
theorem delete_admin_counterexample :
    (delete_file [sampleFile] adminUser 1).1.status = 404 ∧
    (delete_file [sampleFile] adminUser 1).2 = [sampleFile] := by decide

/-- Claim C7 amended: DELETE file succeeds exactly when the caller is the
uploader (an admin non-owner is refused); success soft-deletes — the
table keeps its length, non-target rows are untouched and the target
survives with is_active set to false; the lookup ignores is_active, so
deleting an already-inactive file also succeeds. -/
theorem delete_owner_only (db : List File) (u : User) (fid : Nat) :
    ((delete_file db u fid).1.status = 200 ↔
      ∃ f ∈ db, f.id = fid ∧ f.uploaded_by = u.id) ∧
    ((delete_file db u fid).2.length = db.length) ∧
    (∀ f ∈ db, ¬(f.id = fid ∧ f.uploaded_by = u.id) →
      f ∈ (delete_file db u fid).2) ∧
    (∀ f ∈ db, (f.id = fid ∧ f.uploaded_by = u.id) →
      { f with is_active := false } ∈ (delete_file db u fid).2) := by
  unfold delete_file
  cases hf : db.find? (fun f => decide (f.id = fid ∧ f.uploaded_by = u.id)) with
  | some g =>
    dsimp only
    refine ⟨?_, ?_, ?_, ?_⟩
    · constructor
      · intro _
        exact ⟨g, List.mem_of_find?_eq_some hf, by simpa using List.find?_some hf⟩
      · intro _
        rfl
    · simp [List.length_map]
    · intro f hm hnot
      have him : (if f.id = fid ∧ f.uploaded_by = u.id then
          { f with is_active := false } else f) = f := if_neg hnot
      exact him ▸ List.mem_map_of_mem _ hm
    · intro f hm hcond
      have him : (if f.id = fid ∧ f.uploaded_by = u.id then
          { f with is_active := false } else f) = { f with is_active := false } :=
        if_pos hcond
      exact him ▸ List.mem_map_of_mem _ hm
  | none =>
    dsimp only
    refine ⟨?_, rfl, ?_, ?_⟩
    · constructor
      · intro h
        exact absurd h (by omega)
      · rintro ⟨f, hm, hc⟩
        have hnone := List.find?_eq_none.mp hf f hm
        simp [hc.1, hc.2] at hnone
    · intro f hm _
      exact hm
    · intro f hm hc
      have hnone := List.find?_eq_none.mp hf f hm
      simp [hc.1, hc.2] at hnone

/-- Instance of delete_owner_only: the owner deletes their file and the
row survives deactivated. -/
theorem delete_owner_only_witness :
    { sampleFile with is_active := false } ∈ (delete_file [sampleFile] plainUser 1).2 :=
  (delete_owner_only [sampleFile] plainUser 1).2.2.2 sampleFile (by simp) (by decide)

/-- update_access_count only writes the FileAccess table, never the log. -/
theorem update_access_count_logs (st : ServiceState) (f : File) (u : User)
    (a : AccessType) (now : Nat) :
    (update_access_count st f u a now).logs = st.logs := by
  unfold update_access_count
  split <;> rfl

/-- Every branch of generate_signed_url appends exactly one log row, and
its success flag is set exactly on the Allow-and-presigned path. -/
theorem generate_signed_url_one_log (storeOk : Bool) (st : ServiceState)
    (f : File) (u : User) (a : AccessType) (now : Nat) :
    ∃ e : FileAccessLog,
      (generate_signed_url storeOk st f u a now).2.logs = st.logs ++ [e] ∧
      (e.success = true ↔
        (generate_signed_url storeOk st f u a now).1 = SignedUrlResult.ok) := by
  unfold generate_signed_url
  by_cases hv : verify_file_access st f u a now = true
  · by_cases hs : storeOk = true
    · refine ⟨⟨f.id, u.id, a, true, 200, now⟩, ?_, ?_⟩
      · simp [hv, hs, update_access_count_logs, log_access_attempt]
      · simp [hv, hs]
    · have hs' : storeOk = false := by
        cases storeOk
        · rfl
        · exact absurd rfl hs
      refine ⟨⟨f.id, u.id, a, false, 403, now⟩, ?_, ?_⟩
      · simp [hv, hs', log_access_attempt]
      · simp [hv, hs']
  · have hv' : verify_file_access st f u a now = false := by
      cases h : verify_file_access st f u a now
      · rfl
      · exact absurd h hv
    refine ⟨⟨f.id, u.id, a, false, 403, now⟩, ?_, ?_⟩
    · simp [hv', log_access_attempt]
    · simp [hv']

/-- Claim C3 counterexample: a request for a file that is soft-deleted (and
equally one for a missing id) returns the 404 denial without appending
any AccessLogEntry, so not every call produces exactly one entry. -/
theorem audit_missing_file_counterexample :
    ((get_file_access true ⟨[], []⟩ [{ sampleFile with is_active := false }]
        1 plainUser 0).1.success = false) ∧
    ((get_file_access true ⟨[], []⟩ [{ sampleFile with is_active := false }]
        1 plainUser 0).2.logs = []) := by decide

/-- Claim C3 amended: when the id lookup finds an active file, the call appends
exactly one AccessLogEntry whose success flag equals the success flag of
the returned decision; a call that finds no active file appends none. -/
theorem audit_one_log_when_found (storeOk : Bool) (st : ServiceState)
    (db : List File) (fid : Nat) (u : User) (now : Nat) (f : File)
    (hf : db.find? (fun g => decide (g.id = fid) && g.is_active) = some f) :
    ∃ e : FileAccessLog,
      (get_file_access storeOk st db fid u now).2.logs = st.logs ++ [e] ∧
      e.success = (get_file_access storeOk st db fid u now).1.success := by
  unfold get_file_access
  rw [hf]
  dsimp only
  obtain ⟨e, he1, he2⟩ := generate_signed_url_one_log storeOk st f u
    (if f.file_type = FileType.video then AccessType.stream else AccessType.download) now
  rcases hr : generate_signed_url storeOk st f u
      (if f.file_type = FileType.video then AccessType.stream else AccessType.download) now
    with ⟨r, st1⟩
  rw [hr] at he1 he2
  cases r with
  | ok =>
      refine ⟨e, he1, ?_⟩
      simpa using he2.mpr rfl
  | permissionDenied =>
      refine ⟨e, he1, ?_⟩
      have : ¬ e.success = true := fun h => by simpa using he2.mp h
      simpa using this
  | s3error =>
      refine ⟨e, he1, ?_⟩
      have : ¬ e.success = true := fun h => by simpa using he2.mp h
      simpa using this

/-- Instance of audit_one_log_when_found on an empty log and an active
public file: the call allows and logs one successful entry. -/
theorem audit_one_log_when_found_witness :
    ∃ e : FileAccessLog,
      (get_file_access true ⟨[], []⟩ [sampleFile] 1 plainUser 0).2.logs = [] ++ [e] ∧
      e.success = (get_file_access true ⟨[], []⟩ [sampleFile] 1 plainUser 0).1.success :=
  audit_one_log_when_found true ⟨[], []⟩ [sampleFile] 1 plainUser 0 sampleFile (by decide)

/-- Claim C4 counterexample: a tier denial and a download-disabled denial both
surface as an HTTP 500 server-error response, and the two responses are
byte-identical — no machine-readable reason code distinguishes the
causes, and the denial is not a first-class non-fault outcome. -/
theorem deny_no_reason_code_counterexample :
    ((get_file_access true ⟨[], []⟩
        [{ sampleFile with access_level := FileAccessLevel.admin }]
        1 plainUser 0).1.status = 500) ∧
    (denyReason ⟨[], []⟩ { sampleFile with access_level := FileAccessLevel.admin }
        plainUser AccessType.download 0 = some DenyReason.insufficient_tier) ∧
    (denyReason ⟨[], []⟩ { sampleFile with allow_download := false }
        plainUser AccessType.download 0 = some DenyReason.download_disabled) ∧
    ((get_file_access true ⟨[], []⟩
        [{ sampleFile with access_level := FileAccessLevel.admin }] 1 plainUser 0).1 =
     (get_file_access true ⟨[], []⟩
        [{ sampleFile with allow_download := false }] 1 plainUser 0).1) := by decide

/-- Claim C4 amended: every policy denial on a found active file is surfaced
through the blanket exception handler as the same HTTP 500 response with
success=false and the fixed PermissionDenied message — carrying no
denial-cause code — while a missing or inactive file yields 404; no
denial is returned as a first-class non-error outcome. -/
theorem deny_surfaces_as_500 (storeOk : Bool) (st : ServiceState)
    (db : List File) (fid : Nat) (u : User) (now : Nat) (f : File)
    (hf : db.find? (fun g => decide (g.id = fid) && g.is_active) = some f)
    (hd : verify_file_access st f u
      (if f.file_type = FileType.video then AccessType.stream
       else AccessType.download) now = false) :
    (get_file_access storeOk st db fid u now).1 =
      { status := 500, success := false,
        message := "Error generating file access: You don\x27t have permission to access this file" } := by
  unfold get_file_access
  rw [hf]
  dsimp only
  unfold generate_signed_url
  simp [hd]

/-- Instance of deny_surfaces_as_500: an admin-tier file requested by a
capability-free user. -/
theorem deny_surfaces_as_500_witness :
    (get_file_access true ⟨[], []⟩
        [{ sampleFile with access_level := FileAccessLevel.admin }]
        1 plainUser 0).1 =
      { status := 500, success := false,
        message := "Error generating file access: You don\x27t have permission to access this file" } :=
  deny_surfaces_as_500 true ⟨[], []⟩
    [{ sampleFile with access_level := FileAccessLevel.admin }] 1 plainUser 0
    { sampleFile with access_level := FileAccessLevel.admin } (by decide) (by decide)

/-- A pending 10 MiB upload session fixture. -/
def sampleSession : UploadSession :=
  { user_id := 1, file_name := "a.pdf", file_size := 10485760,
    file_type := FileType.pdf, mime_type := "application/pdf",
    upload_token := "tok", status := SessionStatus.pending,
    expires_at := 3600, completed_at := none, uploaded_file := none,
    error_message := none }

/-- Claim C6: uploading a byte count different from the declared session size
against a valid, unexpired session fails with the size-mismatch outcome,
moves the session to failed with the mismatch error recorded, and
creates no File row. -/
theorem size_mismatch_atomicity (s0 : UploadSys) (uid : Nat) (tok : String)
    (n now : Nat) (storeOk : Bool)
    (hst : s0.sess.status = SessionStatus.pending ∨
           s0.sess.status = SessionStatus.uploading)
    (htok : s0.sess.upload_token = tok) (huid : s0.sess.user_id = uid)
    (hexp : now ≤ s0.sess.expires_at)
    (hn : n ≠ s0.sess.file_size) :
    (upload_file true uid tok (some n) storeOk now s0).1 = UploadOutcome.sizeMismatch ∧
    (upload_file true uid tok (some n) storeOk now s0).2.sess.status = SessionStatus.failed ∧
    (upload_file true uid tok (some n) storeOk now s0).2.sess.error_message =
      some "File size mismatch" ∧
    (upload_file true uid tok (some n) storeOk now s0).2.filesCreated = s0.filesCreated := by
  have hexp' : s0.sess.is_expired now = false := by
    simp [UploadSession.is_expired]
    omega
  unfold upload_file uploadPhase1 uploadPhase2
  simp [htok, huid, hst, hexp', hn]

/-- Instance of size_mismatch_atomicity: 9 MiB uploaded against a
declared 10 MiB. -/
theorem size_mismatch_atomicity_witness :
    (upload_file true 1 "tok" (some 9437184) true 100 ⟨sampleSession, 0⟩).1 =
      UploadOutcome.sizeMismatch ∧
    (upload_file true 1 "tok" (some 9437184) true 100 ⟨sampleSession, 0⟩).2.sess.status =
      SessionStatus.failed ∧
    (upload_file true 1 "tok" (some 9437184) true 100 ⟨sampleSession, 0⟩).2.sess.error_message =
      some "File size mismatch" ∧
    (upload_file true 1 "tok" (some 9437184) true 100 ⟨sampleSession, 0⟩).2.filesCreated = 0 :=
  size_mismatch_atomicity ⟨sampleSession, 0⟩ 1 "tok" 9437184 100 true
    (Or.inl rfl) rfl rfl (by decide) (by decide)

/-- Claim C8 counterexample: two beginUpload calls on the same valid token,
interleaved at the unguarded status-save boundary, both complete
successfully and create two File rows — not exactly one winner. -/
theorem token_reuse_interleaving_counterexample :
    (upload_two_interleaved 1 "tok" 10485760 10485760 100 ⟨sampleSession, 0⟩).1 =
      some UploadOutcome.created ∧
    (upload_two_interleaved 1 "tok" 10485760 10485760 100 ⟨sampleSession, 0⟩).2.1 =
      some UploadOutcome.created ∧
    (upload_two_interleaved 1 "tok" 10485760 10485760 100 ⟨sampleSession, 0⟩).2.2.filesCreated =
      2 := by decide

/-- Claim C8 amended: the token is single-use only under serialized execution —
a first complete call succeeds and consumes the session, and any later
call on the same token fails with the generic invalid-session lookup
error (there is no distinct SessionAlreadyConsumed code) leaving state
unchanged; the pending-to-uploading write is an unguarded save rather
than an atomic claim, so interleaved concurrent calls can both succeed. -/
theorem token_single_use_sequential (s0 : UploadSys) (uid : Nat) (tok : String)
    (now now2 : Nat) (sz2 : Option Nat) (st2 : Bool)
    (hst : s0.sess.status = SessionStatus.pending)
    (htok : s0.sess.upload_token = tok) (huid : s0.sess.user_id = uid)
    (hexp : now ≤ s0.sess.expires_at) :
    (upload_file true uid tok (some s0.sess.file_size) true now s0).1 =
      UploadOutcome.created ∧
    (upload_file true uid tok (some s0.sess.file_size) true now s0).2.filesCreated =
      s0.filesCreated + 1 ∧
    (upload_file true uid tok sz2 st2 now2
        (upload_file true uid tok (some s0.sess.file_size) true now s0).2).1 =
      UploadOutcome.invalidSession ∧
    (upload_file true uid tok sz2 st2 now2
        (upload_file true uid tok (some s0.sess.file_size) true now s0).2).2 =
      (upload_file true uid tok (some s0.sess.file_size) true now s0).2 := by
  have hexp' : s0.sess.is_expired now = false := by
    simp [UploadSession.is_expired]
    omega
  have hrun : upload_file true uid tok (some s0.sess.file_size) true now s0 =
      (UploadOutcome.created,
        ⟨{ s0.sess with
            status := SessionStatus.completed
            completed_at := some now
            uploaded_file := some s0.filesCreated },
          s0.filesCreated + 1⟩) := by
    unfold upload_file uploadPhase1 uploadPhase2
    simp [htok, huid, hst, hexp']
  rw [hrun]
  refine ⟨rfl, rfl, ?_, ?_⟩ <;>
    unfold upload_file uploadPhase1 <;> simp

/-- Instance of token_single_use_sequential on the 10 MiB pending
session fixture. -/
theorem token_single_use_sequential_witness :
    (upload_file true 1 "tok" (some sampleSession.file_size) true 100 ⟨sampleSession, 0⟩).1 =
      UploadOutcome.created ∧
    (upload_file true 1 "tok" (some sampleSession.file_size) true 100 ⟨sampleSession, 0⟩).2.filesCreated = 1 ∧
    (upload_file true 1 "tok" (some 10485760) true 200
        (upload_file true 1 "tok" (some sampleSession.file_size) true 100 ⟨sampleSession, 0⟩).2).1 =
      UploadOutcome.invalidSession ∧
    (upload_file true 1 "tok" (some 10485760) true 200
        (upload_file true 1 "tok" (some sampleSession.file_size) true 100 ⟨sampleSession, 0⟩).2).2 =
      (upload_file true 1 "tok" (some sampleSession.file_size) true 100 ⟨sampleSession, 0⟩).2 :=
  token_single_use_sequential ⟨sampleSession, 0⟩ 1 "tok" 100 200 (some 10485760) true
    rfl rfl rfl (by decide)

/-- Claim C10: a grant lazily created by update_access_count at time t0 (no
prior grant for the key) carries expiry t0 + 30 days, and any access
decision for that (file, user, action) evaluated strictly after that
instant is denied by the expired-grant branch, even though the role of
the user still satisfies the tier of the file and every other check
passes. -/
theorem lazy_grant_thirty_day_decay (st0 : ServiceState) (f : File) (u : User)
    (a : AccessType) (t0 now : Nat)
    (hg0 : findGrant st0.grants f.id u.id a = none)
    (hlvl : check_access_level f u = true)
    (hact : f.is_active = true) (hexp : f.expires_at = none)
    (hdl : f.allow_download = true) (hstr : f.allow_streaming = true)
    (hlate : now > t0 + days30) :
    (∃ g, findGrant (update_access_count st0 f u a t0).grants f.id u.id a = some g ∧
          g.expires_at = some (t0 + days30)) ∧
    verify_file_access (update_access_count st0 f u a t0) f u a now = false ∧
    denyReason (update_access_count st0 f u a t0) f u a now =
      some DenyReason.grant_expired := by
  have hupd : update_access_count st0 f u a t0 =
      { st0 with grants := st0.grants ++
          [⟨f.id, u.id, a, t0, some (t0 + days30), u.id, 1, some t0⟩] } := by
    unfold update_access_count
    rw [hg0]
  have hfind : findGrant (st0.grants ++
      [⟨f.id, u.id, a, t0, some (t0 + days30), u.id, 1, some t0⟩]) f.id u.id a =
      some ⟨f.id, u.id, a, t0, some (t0 + days30), u.id, 1, some t0⟩ := by
    unfold findGrant at hg0 ⊢
    rw [List.find?_append, hg0, Option.none_or]
    exact List.find?_cons_of_pos _ (by simp)
  have hgexp : FileAccess.is_expired
      ⟨f.id, u.id, a, t0, some (t0 + days30), u.id, 1, some t0⟩ now = true := by
    simp [FileAccess.is_expired]
    omega
  rw [hupd]
  refine ⟨⟨_, hfind, rfl⟩, ?_, ?_⟩
  · unfold verify_file_access check_file_access_permissions
    dsimp only
    rw [hfind]
    simp [hact, hexp, File.is_expired, hlvl, hdl, hstr, hgexp]
  · unfold denyReason
    dsimp only
    rw [hfind]
    simp [hact, hexp, File.is_expired, hlvl, hdl, hstr, hgexp]

/-- Instance of lazy_grant_thirty_day_decay: grant created at t0 = 0,
request one second after the 30-day expiry. -/
theorem lazy_grant_thirty_day_decay_witness :
    verify_file_access (update_access_count ⟨[], []⟩ sampleFile plainUser
        AccessType.download 0) sampleFile plainUser AccessType.download
      (days30 + 1) = false :=
  (lazy_grant_thirty_day_decay ⟨[], []⟩ sampleFile plainUser
      AccessType.download 0 (days30 + 1) rfl rfl rfl rfl rfl rfl
      (by decide)).2.1

/-- On an allowed decision with a working store, generate_signed_url
returns the URL and performs the log append then the counter update. -/
theorem generate_signed_url_allow (st : ServiceState) (f : File) (u : User)
    (a : AccessType) (now : Nat)
    (hv : verify_file_access st f u a now = true) :
    generate_signed_url true st f u a now =
      (SignedUrlResult.ok,
       update_access_count (log_access_attempt st f u a true now) f u a now) := by
  unfold generate_signed_url
  simp [hv]

/-- On a denied decision generate_signed_url logs the failure and raises
PermissionDenied, touching no grant counter. -/
theorem generate_signed_url_deny (storeOk : Bool) (st : ServiceState)
    (f : File) (u : User) (a : AccessType) (now : Nat)
    (hv : verify_file_access st f u a now = false) :
    generate_signed_url storeOk st f u a now =
      (SignedUrlResult.permissionDenied, log_access_attempt st f u a false now) := by
  unfold generate_signed_url
  simp [hv]

/-- Claim C1: on a file with download quota 3 and no pre-existing grants, the
first three downloads of one principal are allowed — the counter of the
lazily created grant reaching 3 — the fourth is denied and the denying
branch is the quota check, while the first download of a different
principal on the same file is still allowed. -/
theorem quota_enforcement_scenario (f : File) (u1 u2 : User)
    (t1 t2 t3 t4 t5 : Nat)
    (hact : f.is_active = true) (hexp : f.expires_at = none)
    (hdl : f.allow_download = true) (hmax : f.max_downloads = some 3)
    (hlvl1 : check_access_level f u1 = true)
    (hlvl2 : check_access_level f u2 = true)
    (hne : u1.id ≠ u2.id)
    (ht2 : t2 ≤ t1 + days30) (ht3 : t3 ≤ t1 + days30) (ht4 : t4 ≤ t1 + days30) :
    let r1 := generate_signed_url true ⟨[], []⟩ f u1 AccessType.download t1
    let r2 := generate_signed_url true r1.2 f u1 AccessType.download t2
    let r3 := generate_signed_url true r2.2 f u1 AccessType.download t3
    let r4 := generate_signed_url true r3.2 f u1 AccessType.download t4
    let r5 := generate_signed_url true r4.2 f u2 AccessType.download t5
    r1.1 = SignedUrlResult.ok ∧ r2.1 = SignedUrlResult.ok ∧
    r3.1 = SignedUrlResult.ok ∧
    (∃ g, findGrant r3.2.grants f.id u1.id AccessType.download = some g ∧
          g.access_count = 3) ∧
    r4.1 = SignedUrlResult.permissionDenied ∧
    denyReason r3.2 f u1 AccessType.download t4 = some DenyReason.quota_exceeded ∧
    r5.1 = SignedUrlResult.ok := by
  intro r1 r2 r3 r4 r5
  have hcc := check_content_access_of_level hlvl1
  have hcc2 := check_content_access_of_level hlvl2
  have hnl2 : ¬ (t1 + days30 < t2) := by omega
  have hnl3 : ¬ (t1 + days30 < t3) := by omega
  have hnl4 : ¬ (t1 + days30 < t4) := by omega
  have hfg1 : findGrant [⟨f.id, u1.id, AccessType.download, t1, some (t1 + days30), u1.id, 1, some t1⟩]
      f.id u1.id AccessType.download =
      some ⟨f.id, u1.id, AccessType.download, t1, some (t1 + days30), u1.id, 1, some t1⟩ :=
    List.find?_cons_of_pos _ (by simp)
  have hfg2 : findGrant [⟨f.id, u1.id, AccessType.download, t1, some (t1 + days30), u1.id, 2, some t2⟩]
      f.id u1.id AccessType.download =
      some ⟨f.id, u1.id, AccessType.download, t1, some (t1 + days30), u1.id, 2, some t2⟩ :=
    List.find?_cons_of_pos _ (by simp)
  have hfg3 : findGrant [⟨f.id, u1.id, AccessType.download, t1, some (t1 + days30), u1.id, 3, some t3⟩]
      f.id u1.id AccessType.download =
      some ⟨f.id, u1.id, AccessType.download, t1, some (t1 + days30), u1.id, 3, some t3⟩ :=
    List.find?_cons_of_pos _ (by simp)
  have hfg5 : findGrant [⟨f.id, u1.id, AccessType.download, t1, some (t1 + days30), u1.id, 3, some t3⟩]
      f.id u2.id AccessType.download = none := by
    unfold findGrant
    rw [List.find?_cons_of_neg _ (by simp [hne])]
    rfl
  have hv1 : verify_file_access ⟨[], []⟩ f u1 AccessType.download t1 = true := by
    unfold verify_file_access check_file_access_permissions
    dsimp only
    simp [hact, hexp, File.is_expired, hlvl1, hdl, hcc, findGrant]
  have h1 : r1 = (SignedUrlResult.ok,
      ⟨[⟨f.id, u1.id, AccessType.download, t1, some (t1 + days30), u1.id, 1, some t1⟩],
       [⟨f.id, u1.id, AccessType.download, true, 200, t1⟩]⟩) := by
    show generate_signed_url true ⟨[], []⟩ f u1 AccessType.download t1 = _
    rw [generate_signed_url_allow _ _ _ _ _ hv1]
    unfold update_access_count log_access_attempt findGrant
    simp
  have hv2 : verify_file_access
      ⟨[⟨f.id, u1.id, AccessType.download, t1, some (t1 + days30), u1.id, 1, some t1⟩],
       [⟨f.id, u1.id, AccessType.download, true, 200, t1⟩]⟩
      f u1 AccessType.download t2 = true := by
    unfold verify_file_access check_file_access_permissions
    dsimp only
    rw [hfg1]
    simp [hact, hexp, File.is_expired, FileAccess.is_expired, hlvl1, hdl, hmax, hcc, hnl2]
  have h2 : r2 = (SignedUrlResult.ok,
      ⟨[⟨f.id, u1.id, AccessType.download, t1, some (t1 + days30), u1.id, 2, some t2⟩],
       [⟨f.id, u1.id, AccessType.download, true, 200, t1⟩,
        ⟨f.id, u1.id, AccessType.download, true, 200, t2⟩]⟩) := by
    show generate_signed_url true r1.2 f u1 AccessType.download t2 = _
    rw [h1]
    rw [generate_signed_url_allow _ _ _ _ _ hv2]
    unfold update_access_count log_access_attempt
    dsimp only
    rw [hfg1]
    simp
  have hv3 : verify_file_access
      ⟨[⟨f.id, u1.id, AccessType.download, t1, some (t1 + days30), u1.id, 2, some t2⟩],
       [⟨f.id, u1.id, AccessType.download, true, 200, t1⟩,
        ⟨f.id, u1.id, AccessType.download, true, 200, t2⟩]⟩
      f u1 AccessType.download t3 = true := by
    unfold verify_file_access check_file_access_permissions
    dsimp only
    rw [hfg2]
    simp [hact, hexp, File.is_expired, FileAccess.is_expired, hlvl1, hdl, hmax, hcc, hnl3]
  have h3 : r3 = (SignedUrlResult.ok,
      ⟨[⟨f.id, u1.id, AccessType.download, t1, some (t1 + days30), u1.id, 3, some t3⟩],
       [⟨f.id, u1.id, AccessType.download, true, 200, t1⟩,
        ⟨f.id, u1.id, AccessType.download, true, 200, t2⟩,
        ⟨f.id, u1.id, AccessType.download, true, 200, t3⟩]⟩) := by
    show generate_signed_url true r2.2 f u1 AccessType.download t3 = _
    rw [h2]
    rw [generate_signed_url_allow _ _ _ _ _ hv3]
    unfold update_access_count log_access_attempt
    dsimp only
    rw [hfg2]
    simp
  have hv4 : verify_file_access
      ⟨[⟨f.id, u1.id, AccessType.download, t1, some (t1 + days30), u1.id, 3, some t3⟩],
       [⟨f.id, u1.id, AccessType.download, true, 200, t1⟩,
        ⟨f.id, u1.id, AccessType.download, true, 200, t2⟩,
        ⟨f.id, u1.id, AccessType.download, true, 200, t3⟩]⟩
      f u1 AccessType.download t4 = false := by
    unfold verify_file_access check_file_access_permissions
    dsimp only
    rw [hfg3]
    simp [hact, hexp, File.is_expired, FileAccess.is_expired, hlvl1, hdl, hmax, hcc, hnl4]
  have hdr4 : denyReason
      ⟨[⟨f.id, u1.id, AccessType.download, t1, some (t1 + days30), u1.id, 3, some t3⟩],
       [⟨f.id, u1.id, AccessType.download, true, 200, t1⟩,
        ⟨f.id, u1.id, AccessType.download, true, 200, t2⟩,
        ⟨f.id, u1.id, AccessType.download, true, 200, t3⟩]⟩
      f u1 AccessType.download t4 = some DenyReason.quota_exceeded := by
    unfold denyReason
    dsimp only
    rw [hfg3]
    simp [hact, hexp, File.is_expired, FileAccess.is_expired, hlvl1, hdl, hmax, hnl4]
  have h4 : r4 = (SignedUrlResult.permissionDenied,
      ⟨[⟨f.id, u1.id, AccessType.download, t1, some (t1 + days30), u1.id, 3, some t3⟩],
       [⟨f.id, u1.id, AccessType.download, true, 200, t1⟩,
        ⟨f.id, u1.id, AccessType.download, true, 200, t2⟩,
        ⟨f.id, u1.id, AccessType.download, true, 200, t3⟩,
        ⟨f.id, u1.id, AccessType.download, false, 403, t4⟩]⟩) := by
    show generate_signed_url true r3.2 f u1 AccessType.download t4 = _
    rw [h3]
    rw [generate_signed_url_deny _ _ _ _ _ _ hv4]
    unfold log_access_attempt
    simp
  have hv5 : verify_file_access
      ⟨[⟨f.id, u1.id, AccessType.download, t1, some (t1 + days30), u1.id, 3, some t3⟩],
       [⟨f.id, u1.id, AccessType.download, true, 200, t1⟩,
        ⟨f.id, u1.id, AccessType.download, true, 200, t2⟩,
        ⟨f.id, u1.id, AccessType.download, true, 200, t3⟩,
        ⟨f.id, u1.id, AccessType.download, false, 403, t4⟩]⟩
      f u2 AccessType.download t5 = true := by
    unfold verify_file_access check_file_access_permissions
    dsimp only
    rw [hfg5]
    simp [hact, hexp, File.is_expired, hlvl2, hdl, hcc2]
  refine ⟨?_, ?_, ?_, ?_, ?_, ?_, ?_⟩
  · rw [h1]
  · rw [h2]
  · rw [h3]
  · rw [h3]
    exact ⟨_, hfg3, rfl⟩
  · rw [h4]
  · rw [h3]
    exact hdr4
  · show (generate_signed_url true r4.2 f u2 AccessType.download t5).1 = _
    rw [h4]
    rw [generate_signed_url_allow _ _ _ _ _ hv5]

/-- Instance of quota_enforcement_scenario: quota-3 public file, two
capability-free users, requests at seconds 0 through 4. -/
theorem quota_enforcement_scenario_witness :
    let f := { sampleFile with max_downloads := some 3 }
    let r1 := generate_signed_url true ⟨[], []⟩ f plainUser AccessType.download 0
    let r2 := generate_signed_url true r1.2 f plainUser AccessType.download 1
    let r3 := generate_signed_url true r2.2 f plainUser AccessType.download 2
    let r4 := generate_signed_url true r3.2 f plainUser AccessType.download 3
    let r5 := generate_signed_url true r4.2 f otherUser AccessType.download 4
    r1.1 = SignedUrlResult.ok ∧ r2.1 = SignedUrlResult.ok ∧
    r3.1 = SignedUrlResult.ok ∧
    (∃ g, findGrant r3.2.grants f.id plainUser.id AccessType.download = some g ∧
          g.access_count = 3) ∧
    r4.1 = SignedUrlResult.permissionDenied ∧
    denyReason r3.2 f plainUser AccessType.download 3 = some DenyReason.quota_exceeded ∧
    r5.1 = SignedUrlResult.ok :=
  quota_enforcement_scenario { sampleFile with max_downloads := some 3 }
    plainUser otherUser 0 1 2 3 4 rfl rfl rfl rfl (by decide) (by decide)
    (by decide) (by decide) (by decide) (by decide)

end SecureFiles
